import Mathlib

/-!
# StreamForge ingest & lifecycle orchestrator — verification development

Shallow embedding of the upload/lifecycle routes of the stream-forge
repository and proofs about them.

Sources embedded here:
* `src/server/src/modules/upload/routes.ts` — upload routes
  (`POST /`, `POST /:uploadId/complete`, `POST /:uploadId/abort`).
* `src/server/src/db/schema.ts` and `src/server/drizzle/0000_smiling_lucky_pierre.sql`
  — the `videos`, `segments`, `upload_sessions` tables (the migration SQL is the
  complete column set).
* `src/server/src/lib/checksum.ts` (`validateS3FileChecksum`,
  `validateS3PartChecksums`).
* the BullMQ worker (`Worker<VideoJobData>` success path, in
  `src/server/src/jobs/cleanup-multipart-uploads.ts`).
* the video routes (`GET /`, `GET /:id`).

Opaque external services (S3, SHA-256, BullMQ, presigning) are modelled as
explicit parameters: the object store is a function from key to optional byte
list, SHA-256 is an uninterpreted function parameter, and success/failure of
the provider calls are boolean oracles.  Handlers additionally return a trace
of the externally visible effects they performed, in program order.
-/

namespace StreamForge

/-- Video lifecycle status, from the `video_status` enum of the migration SQL. -/
inductive VideoStatus
  | pending_upload
  | uploading
  | processing
  | ready
  | failed
  | cancelled
  | deleted
deriving DecidableEq, Repr

/-- The `thumbnails` jsonb descriptor written by the worker. -/
structure Thumbs where
  pattern : String
  interval : Nat
  sprite : Option String
deriving DecidableEq, Repr

/-- One row of the `videos` table (columns of the migration SQL; timestamps as `Nat`,
`real` durations as `Nat` since only nullness and equality matter here). -/
structure Video where
  id : String
  title : String
  status : VideoStatus
  sourceUrl : String
  sourceSize : Nat
  sourceChecksum : Option String
  manifestUrl : Option String
  initSegmentUrl : Option String
  keyframeIndexUrl : Option String
  thumbnails : Option Thumbs
  duration : Option Nat
  width : Option Nat
  height : Option Nat
  codec : Option String
  bitrate : Option Nat
  fps : Option Nat
  uploadSessionId : Option String
  uploadedParts : Option (List Nat)
  processingAttempts : Nat
  lastError : Option String
  isPublic : Bool
  createdAt : Nat
  updatedAt : Nat
  processedAt : Option Nat
  cancelledAt : Option Nat
  deletedAt : Option Nat
deriving DecidableEq, Repr

/-- One row of the `segments` table. -/
structure SegmentRow where
  videoId : String
  idx : Nat
  url : String
  start : Nat
  duration : Nat
  size : Option Nat
  keyframe : Bool
deriving DecidableEq, Repr

/-- `db.select().from(videos).where(eq(videos.id, id)).limit(1)`:
the first row whose id matches. -/
def findVideo (db : List Video) (id : String) : Option Video :=
  db.find? (fun v => v.id == id)

/-- `db.update(videos).set(...).where(eq(videos.id, id))`: rewrite every row
whose id matches. -/
def updateVideo (db : List Video) (id : String) (f : Video → Video) : List Video :=
  db.map (fun v => if v.id == id then f v else v)

/-- Externally visible side effects of a handler, in program order. -/
inductive Effect
  | s3CreateMultipart (key : String)
  | s3PresignPut (key : String)
  | s3PresignPart (key : String) (partNumber : Nat)
  | s3CompleteMultipart (key : String)
  | s3AbortMultipart (key : String)
  | s3GetObject (key : String)
  | s3RangeGet (key : String) (startByte endByte : Nat)
  | s3Delete (key : String)
  | s3Head (key : String)
  | dbInsertVideo (id : String)
  | dbUpdateVideo (id : String)
  | enqueueJob (videoId : String)
deriving DecidableEq, Repr

/-- A job placed on the `video-processing` queue:
`videoQueue.add("transcode", { videoId, sourceUrl })`. -/
structure Job where
  videoId : String
  sourceUrl : String
deriving DecidableEq, Repr

/-- Environment of a request handler: the bucket name, boolean oracles for the
fallible provider calls, the object-store contents, and SHA-256 (base64) as an
uninterpreted function on byte lists. -/
structure Env where
  bucket : String
  s3CompleteOk : Bool
  queueOk : Bool
  store : String → Option (List Nat)
  hash : List Nat → String

/-- Replace the first occurrence of `pat` by `repl`, as the JavaScript
`String.prototype.replace` with a string pattern does (structurally recursive
rendition over character lists). -/
def replaceFirstChars (pat repl : List Char) : List Char → List Char
  | [] => []
  | c :: cs =>
    if pat.isPrefixOf (c :: cs) then repl ++ (c :: cs).drop pat.length
    else c :: replaceFirstChars pat repl cs

/-- `S3Keys.parseS3Url`: `s3Url.replace("s3://" + bucketName + "/", "")`. -/
def parseS3Url (s3Url bucketName : String) : String :=
  String.mk (replaceFirstChars ("s3://" ++ bucketName ++ "/").data [] s3Url.data)

/-- `filename.split(".")` (structurally recursive rendition over character
lists). -/
def splitOnDot : List Char → List (List Char)
  | [] => [[]]
  | c :: cs =>
    let rest := splitOnDot cs
    if c == '.' then [] :: rest
    else match rest with
      | [] => [[c]]
      | r :: rs => (c :: r) :: rs

/-- `S3Keys.source`: `sources/<videoId>/original.<ext>` where `ext` is
`filename.split(".").pop() || "mp4"`. -/
def sourceKey (videoId filename : String) : String :=
  let ext := match (splitOnDot filename.data).getLast? with
    | some e => if e = [] then "mp4" else String.mk e
    | none => "mp4"
  "sources/" ++ videoId ++ "/original." ++ ext

/-- One entry of the `parts` array of the completion request body. -/
structure PartInput where
  PartNumber : Nat
  ETag : String
deriving DecidableEq, Repr

/-- Insert a part into a list sorted ascending by part number. -/
def insertPart (p : PartInput) : List PartInput → List PartInput
  | [] => [p]
  | q :: qs =>
    if p.PartNumber ≤ q.PartNumber then p :: q :: qs else q :: insertPart p qs

/-- `[...parts].sort((a, b) => a.PartNumber - b.PartNumber)`. -/
def sortParts : List PartInput → List PartInput
  | [] => []
  | p :: ps => insertPart p (sortParts ps)

/-- Outcome of `POST /uploads/:uploadId/complete`. -/
inductive CompleteOutcome
  | notFound
  | stateConflict (currentStatus : VideoStatus)
  | invalidParts
  | nonSequentialParts
  | missingETag (partNumber : Nat)
  | s3CompleteFailed
  | checksumMismatch (expected received : String)
  | checksumError
  | enqueueFailed
  | ok (videoId : String)
deriving DecidableEq, Repr

/-- HTTP status code of each completion outcome (`s3CompleteFailed` and
`enqueueFailed` are uncaught throws, surfaced by fastify as 500). -/
def completeStatusCode : CompleteOutcome → Nat
  | .notFound => 404
  | .stateConflict _ => 400
  | .invalidParts => 400
  | .nonSequentialParts => 400
  | .missingETag _ => 400
  | .s3CompleteFailed => 500
  | .checksumMismatch _ _ => 400
  | .checksumError => 500
  | .enqueueFailed => 500
  | .ok _ => 200

/-- Result of a completion request: outcome, final `videos` table, jobs newly
enqueued, and the trace of performed effects. -/
structure CompleteResult where
  outcome : CompleteOutcome
  db : List Video
  jobs : List Job
  trace : List Effect
deriving DecidableEq, Repr

/-- The `for` loop over `sortedParts`: at index `i` first require
`PartNumber = i + 1`, then a non-empty ETag. -/
def checkParts : List PartInput → Nat → Option CompleteOutcome
  | [], _ => none
  | p :: ps, i =>
    if p.PartNumber ≠ i + 1 then some .nonSequentialParts
    else if p.ETag = "" then some (.missingETag p.PartNumber)
    else checkParts ps (i + 1)

/-- Final two stages of the completion handler, state transition + enqueue:
`db.update(...).set({status: "processing", updatedAt}).where(...)` followed by
`videoQueue.add("transcode", {videoId, sourceUrl})`.  The two calls are
sequential; a queue failure propagates after the update has been issued. -/
def transitionStage (env : Env) (now : Nat) (db : List Video) (uploadId : String)
    (videoData : Video) (trace : List Effect) : CompleteResult :=
  let db2 := updateVideo db uploadId
    (fun v => { v with status := .processing, updatedAt := now })
  if env.queueOk then
    { outcome := .ok videoData.id
      db := db2
      jobs := [{ videoId := videoData.id, sourceUrl := videoData.sourceUrl }]
      trace := trace ++ [.dbUpdateVideo uploadId, .enqueueJob videoData.id] }
  else
    { outcome := .enqueueFailed
      db := db2
      jobs := []
      trace := trace ++ [.dbUpdateVideo uploadId] }

/-- Whole-file checksum stage of the completion handler
(`if (videoData.sourceChecksum) { validateS3FileChecksum ... }`):
`validateS3FileChecksum` streams the object through SHA-256 and compares with
the declared base64 digest; a missing object throws (caught as a 500 and the
video is marked failed); a mismatch is a 400 carrying expected and received
values and the video is marked failed. -/
def checksumStage (env : Env) (now : Nat) (db : List Video) (uploadId : String)
    (videoData : Video) (s3Key : String) (trace : List Effect) : CompleteResult :=
  match videoData.sourceChecksum with
  | none => transitionStage env now db uploadId videoData trace
  | some expected =>
    match env.store s3Key with
    | none =>
      { outcome := .checksumError
        db := updateVideo db uploadId
          (fun v => { v with status := .failed, updatedAt := now })
        jobs := []
        trace := trace ++ [.s3GetObject s3Key, .dbUpdateVideo uploadId] }
    | some bytes =>
      if env.hash bytes = expected then
        transitionStage env now db uploadId videoData (trace ++ [.s3GetObject s3Key])
      else
        { outcome := .checksumMismatch expected (env.hash bytes)
          db := updateVideo db uploadId
            (fun v => { v with status := .failed, updatedAt := now })
          jobs := []
          trace := trace ++ [.s3GetObject s3Key, .dbUpdateVideo uploadId] }

/-- `POST /uploads/:uploadId/complete` (routes.ts): look the video up, reject
unless it is `pending_upload`, optionally complete the multipart upload,
optionally validate the whole-file checksum, then set `processing` and enqueue
the transcode job. -/
def completeUpload (env : Env) (now : Nat) (db : List Video) (uploadId : String)
    (multipartUploadId : Option String) (parts : Option (List PartInput)) :
    CompleteResult :=
  match findVideo db uploadId with
  | none => { outcome := .notFound, db := db, jobs := [], trace := [] }
  | some videoData =>
    if videoData.status ≠ .pending_upload then
      { outcome := .stateConflict videoData.status, db := db, jobs := [], trace := [] }
    else
      let s3Key := parseS3Url videoData.sourceUrl env.bucket
      match multipartUploadId, parts with
      | some _, some ps =>
        if ps.isEmpty then
          { outcome := .invalidParts, db := db, jobs := [], trace := [] }
        else
          match checkParts (sortParts ps) 0 with
          | some bad => { outcome := bad, db := db, jobs := [], trace := [] }
          | none =>
            if env.s3CompleteOk then
              checksumStage env now db uploadId videoData s3Key
                [.s3CompleteMultipart s3Key]
            else
              { outcome := .s3CompleteFailed
                db := updateVideo db uploadId
                  (fun v => { v with status := .failed, updatedAt := now })
                jobs := []
                trace := [.s3CompleteMultipart s3Key, .dbUpdateVideo uploadId] }
      | _, _ => checksumStage env now db uploadId videoData s3Key []

/-!
## `POST /uploads` — session creation

`src/server/src/lib/constants.ts` is not part of the sources at hand, so the
handler is parametric in the configuration; `defaultConfig` carries the
documented default values.
-/

/-- Configuration consumed by the upload routes (the constants module). -/
structure UploadConfig where
  maxFileSize : Nat
  multipartThreshold : Nat
  multipartChunkSize : Nat
  maxMultipartParts : Nat
  presignTtl : Nat
deriving DecidableEq, Repr

/-- Modelled from the spec: the constants module
(`src/server/src/lib/constants.ts`) is not among the sources; these are the
documented defaults (§6.4): MAX_FILE_SIZE 10 GiB, MULTIPART_THRESHOLD 100 MiB,
MULTIPART_CHUNK_BYTES 50 MiB, MAX_MULTIPART_PARTS 10000, PRESIGN_TTL_S 3600 —
the 100 MiB / 50 MiB / 3600 values are also hard-coded in the earlier revision
of the upload routes. -/
def defaultConfig : UploadConfig :=
  { maxFileSize := 10 * 1024 * 1024 * 1024
    multipartThreshold := 100 * 1024 * 1024
    multipartChunkSize := 50 * 1024 * 1024
    maxMultipartParts := 10000
    presignTtl := 3600 }

/-- Outcome of `POST /uploads`. -/
inductive CreateOutcome
  | tooLarge (maxSize receivedSize : Nat)
  | invalidSize
  | partsLimit (maxParts requiredParts : Nat)
  | multipart (uploadId mpUploadId : String) (partUrls : List String)
    (partSize numParts : Nat)
  | single (uploadId uploadUrl : String)
deriving DecidableEq, Repr

/-- HTTP status code of each creation outcome. -/
def createStatusCode : CreateOutcome → Nat
  | .tooLarge _ _ => 413
  | .invalidSize => 400
  | .partsLimit _ _ => 400
  | .multipart _ _ _ _ _ => 200
  | .single _ _ => 200

/-- Result of a creation request. -/
structure CreateResult where
  outcome : CreateOutcome
  db : List Video
  trace : List Effect
deriving DecidableEq, Repr

/-- Presigned URLs are opaque capability strings; model them as a key/part pair
rendered into a string. -/
def presignedPartUrl (key : String) (partNumber : Nat) : String :=
  key ++ "?partNumber=" ++ toString partNumber

/-- A fresh `videos` row as inserted by `POST /uploads` (all worker-derived
fields null, drizzle column defaults applied). -/
def newVideoRow (videoId title sourceUrl : String) (size : Nat)
    (checksum : Option String) (now : Nat) : Video :=
  { id := videoId
    title := title
    status := .pending_upload
    sourceUrl := sourceUrl
    sourceSize := size
    sourceChecksum := checksum
    manifestUrl := none
    initSegmentUrl := none
    keyframeIndexUrl := none
    thumbnails := none
    duration := none
    width := none
    height := none
    codec := none
    bitrate := none
    fps := none
    uploadSessionId := none
    uploadedParts := none
    processingAttempts := 0
    lastError := none
    isPublic := false
    createdAt := now
    updatedAt := now
    processedAt := none
    cancelledAt := none
    deletedAt := none }

/-- `POST /uploads` (routes.ts): size guards, then either initiate a multipart
session (initiate, compute `numParts = Math.ceil(size / partSize)`, reject on
the part-count ceiling, presign each part, insert the row) or mint a single
presigned PUT and insert the row.  Note the multipart upload is created
*before* the parts-limit check, and the rejection path neither aborts it nor
inserts a row. -/
def createUpload (cfg : UploadConfig) (bucket : String) (now : Nat)
    (videoId mpUploadId : String) (db : List Video)
    (filename contentType : String) (size : Nat)
    (titleMeta : Option String) (checksum : Option String) : CreateResult :=
  if size > cfg.maxFileSize then
    { outcome := .tooLarge cfg.maxFileSize size, db := db, trace := [] }
  else if size = 0 then
    { outcome := .invalidSize, db := db, trace := [] }
  else
    let key := sourceKey videoId filename
    let title := titleMeta.getD filename
    let sourceUrl := "s3://" ++ bucket ++ "/" ++ key
    if size > cfg.multipartThreshold then
      let partSize := cfg.multipartChunkSize
      let numParts := (size + partSize - 1) / partSize
      if numParts > cfg.maxMultipartParts then
        { outcome := .partsLimit cfg.maxMultipartParts numParts
          db := db
          trace := [.s3CreateMultipart key] }
      else
        { outcome := .multipart videoId mpUploadId
            ((List.range numParts).map (fun i => presignedPartUrl key (i + 1)))
            partSize numParts
          db := db ++ [newVideoRow videoId title sourceUrl size checksum now]
          trace := .s3CreateMultipart key ::
            (List.range numParts).map (fun i => Effect.s3PresignPart key (i + 1))
            ++ [.dbInsertVideo videoId] }
    else
      { outcome := .single videoId (presignedPartUrl key 0)
        db := db ++ [newVideoRow videoId title sourceUrl size checksum now]
        trace := [.s3PresignPut key, .dbInsertVideo videoId] }

/-!
## `POST /uploads/:uploadId/abort`
-/

/-- Outcome of `POST /uploads/:uploadId/abort`. -/
inductive AbortOutcome
  | notFound
  | success
deriving DecidableEq, Repr

/-- Result of an abort request. -/
structure AbortResult where
  outcome : AbortOutcome
  db : List Video
  trace : List Effect
deriving DecidableEq, Repr

/-- `POST /uploads/:uploadId/abort` (routes.ts): look the video up (404 when
absent), abort the multipart upload when an id was supplied (any S3 error is
swallowed), then set `status = cancelled`, `cancelledAt`, `updatedAt`
unconditionally.  There is no check of the current status. -/
def abortUpload (bucket : String) (now : Nat) (db : List Video)
    (uploadId : String) (multipartUploadId : Option String) : AbortResult :=
  match findVideo db uploadId with
  | none => { outcome := .notFound, db := db, trace := [] }
  | some videoData =>
    let s3Key := parseS3Url videoData.sourceUrl bucket
    let abortTrace := match multipartUploadId with
      | some _ => [Effect.s3AbortMultipart s3Key]
      | none => []
    { outcome := .success
      db := updateVideo db uploadId (fun v =>
        { v with status := .cancelled, cancelledAt := some now, updatedAt := now })
      trace := abortTrace ++ [.dbUpdateVideo uploadId] }

/-!
## Worker success path

From the BullMQ `Worker<VideoJobData>`: on success the job handler first sets
`status = processing`, transcodes, inserts the produced segment rows when there
are any, and finally updates the video row with
`{status: "ready", manifestUrl, width, height, duration, thumbnails}`.
-/

/-- Manifest key written by the worker: `files/<videoId>/manifest.json`. -/
def workerManifestUrl (videoId : String) : String :=
  "files/" ++ videoId ++ "/manifest.json"

/-- Thumbnail descriptor written by the worker. -/
def workerThumbs (videoId : String) : Thumbs :=
  { pattern := "files/" ++ videoId ++ "/thumbnails/thumb_%03d.jpg"
    interval := 4
    sprite := none }

/-- Final database and segment table after a successful worker run. -/
structure WorkerResult where
  db : List Video
  segs : List SegmentRow
deriving DecidableEq, Repr

/-- The worker's success path for one job: set `processing`, insert segments if
any were produced, then the ready update.  `d`, `w`, `h` are the probed
duration, width and height. -/
def workerSuccessRun (db : List Video) (segTable : List SegmentRow)
    (videoId : String) (d w h : Nat) (produced : List SegmentRow) : WorkerResult :=
  let db1 := updateVideo db videoId (fun v => { v with status := .processing })
  let segTable2 := if produced.isEmpty then segTable else segTable ++ produced
  let db2 := updateVideo db1 videoId (fun v =>
    { v with status := .ready
             manifestUrl := some (workerManifestUrl videoId)
             width := some w
             height := some h
             duration := some d
             thumbnails := some (workerThumbs videoId) })
  { db := db2, segs := segTable2 }

/-!
## Video routes (`GET /videos`, `GET /videos/:id`)
-/

/-- Projection returned by the listing endpoint. -/
structure VideoSummary where
  id : String
  title : String
  status : VideoStatus
  duration : Option Nat
  width : Option Nat
  height : Option Nat
  createdAt : Nat
deriving DecidableEq, Repr

/-- Listing projection of a video row. -/
def summaryOf (v : Video) : VideoSummary :=
  { id := v.id, title := v.title, status := v.status, duration := v.duration
    width := v.width, height := v.height, createdAt := v.createdAt }

/-- Insert into a list sorted descending by `createdAt`. -/
def insertByCreatedDesc (v : Video) : List Video → List Video
  | [] => [v]
  | w :: ws =>
    if w.createdAt ≤ v.createdAt then v :: w :: ws else w :: insertByCreatedDesc v ws

/-- `orderBy(desc(videos.createdAt))`. -/
def sortByCreatedDesc : List Video → List Video
  | [] => []
  | v :: vs => insertByCreatedDesc v (sortByCreatedDesc vs)

/-- `GET /videos`: rows with `status ≠ deleted ∧ deleted_at IS NULL`, newest
first, projected to summaries. -/
def listVideos (db : List Video) : List VideoSummary :=
  (sortByCreatedDesc (db.filter
    (fun v => v.status != VideoStatus.deleted && v.deletedAt == none))).map summaryOf

/-- Outcome of `GET /videos/:id`: 404, or 200 with the full row and an
optionally inlined manifest. -/
inductive DetailOutcome
  | notFound
  | okVideo (v : Video) (manifest : Option String)
deriving DecidableEq, Repr

/-- HTTP status code of each detail outcome. -/
def detailStatusCode : DetailOutcome → Nat
  | .notFound => 404
  | .okVideo _ _ => 200

/-- `GET /videos/:id`: look the row up with no status filter; when it is
`ready` with a manifest URL, try to inline the manifest JSON (fetch failures
are caught and the bare row is returned); otherwise return the bare row. -/
def getVideoDetail (fetchJson : String → Option String) (db : List Video)
    (id : String) : DetailOutcome :=
  match findVideo db id with
  | none => .notFound
  | some v =>
    match v.status, v.manifestUrl with
    | .ready, some mUrl =>
      match fetchJson mUrl with
      | some m => .okVideo v (some m)
      | none => .okVideo v none
    | _, _ => .okVideo v none

/-!
## Per-part checksum validation (`validateS3PartChecksums`)

The function exists in `src/server/src/lib/checksum.ts`; it processes the
registered parts in batches of `CONCURRENCY = 5`, reads each part back with a
ranged GET at offset `(partNumber - 1) * partSize`, hashes it, and records a
failure on mismatch or read error.  The registry of parts it would be fed is
modelled from the spec (§4.3.3), as the registration endpoint is not among the
sources at hand.
-/

/-- Modelled from the spec: a registered per-part checksum tuple
`{part_number, checksum, size}` (§4.3.3); the `PATCH /uploads/:id/part-checksums`
route that stores these is not among the sources at hand. -/
structure RegisteredPart where
  partNumber : Nat
  checksum : String
  size : Nat
deriving DecidableEq, Repr

/-- One entry of the `failures` array of the validation result. -/
structure PartFailure where
  partNumber : Nat
  message : String
deriving DecidableEq, Repr

/-- Modelled from the spec: `storage.downloadPartialFile` is not among the
sources at hand; per the adapter contract (§4.1) `range_get` returns the
inclusive byte range and errors when out of bounds. -/
def downloadPartialFile (store : String → Option (List Nat)) (key : String)
    (startByte endByte : Nat) : Option (List Nat) :=
  match store key with
  | none => none
  | some bytes =>
    if endByte < bytes.length then
      some ((bytes.drop startByte).take (endByte + 1 - startByte))
    else none

/-- Validation of a single registered part: ranged GET of
`[(partNumber-1)*partSize, start + size - 1]`, SHA-256, compare; a read error
or a digest mismatch yields a failure entry. -/
def validateOnePart (store : String → Option (List Nat)) (hash : List Nat → String)
    (key : String) (partSize : Nat) (part : RegisteredPart) : Option PartFailure :=
  let startByte := (part.partNumber - 1) * partSize
  let endByte := startByte + part.size - 1
  match downloadPartialFile store key startByte endByte with
  | none => some { partNumber := part.partNumber, message := "download failed" }
  | some data =>
    if hash data = part.checksum then none
    else some { partNumber := part.partNumber, message := "Checksum mismatch" }

/-- Split a list into consecutive batches of at most `CONCURRENCY = 5`
elements, as the batching loop of `validateS3PartChecksums` does. -/
def chunksOf5 : List α → List (List α)
  | [] => []
  | [a] => [[a]]
  | [a, b] => [[a, b]]
  | [a, b, c] => [[a, b, c]]
  | [a, b, c, d] => [[a, b, c, d]]
  | a :: b :: c :: d :: e :: rest => [a, b, c, d, e] :: chunksOf5 rest

/-- Failures accumulated batch by batch, in order. -/
def collectFailures (g : RegisteredPart → Option PartFailure) :
    List (List RegisteredPart) → List PartFailure
  | [] => []
  | b :: bs => b.filterMap g ++ collectFailures g bs

/-- Result of `validateS3PartChecksums`. -/
structure PartValidationResult where
  valid : Bool
  failures : List PartFailure
deriving DecidableEq, Repr

/-- `validateS3PartChecksums` (checksum.ts): batch the registered parts five at
a time, validate each, collect the failures; valid iff no failures. -/
def validateS3PartChecksums (store : String → Option (List Nat))
    (hash : List Nat → String) (key : String)
    (expectedParts : List RegisteredPart) (partSize : Nat) : PartValidationResult :=
  let failures := collectFailures (validateOnePart store hash key partSize)
    (chunksOf5 expectedParts)
  { valid := failures.isEmpty, failures := failures }

/-!
## Fixtures for concrete runs
-/

/-- A baseline freshly created pending-upload row. -/
def baseVideo (id : String) : Video :=
  newVideoRow id "title" ("s3://bkt/sources/" ++ id ++ "/original.mp4") 5 none 0

/-- Environment in which every provider call succeeds but the queue add
fails. -/
def envQueueDown : Env :=
  { bucket := "bkt", s3CompleteOk := true, queueOk := false
    store := fun _ => none, hash := fun _ => "h" }

/-- Environment in which every call succeeds; the object store is empty. -/
def envEmptyStore : Env :=
  { bucket := "bkt", s3CompleteOk := true, queueOk := true
    store := fun _ => none, hash := fun _ => "h" }

/-!
## General lemmas about the database helpers
-/

theorem findVideo_updateVideo (db : List Video) (id : String) (f : Video → Video)
    (hf : ∀ v, (f v).id = v.id) :
    findVideo (updateVideo db id f) id = (findVideo db id).map f := by
  induction db with
  | nil => rfl
  | cons v vs ih =>
    simp only [findVideo, updateVideo, List.map_cons] at ih ⊢
    cases hv : (v.id == id) with
    | true =>
      have hfv : ((f v).id == id) = true := by rw [hf v]; exact hv
      simp [List.find?, hv, hfv]
    | false =>
      have hfv : ((f v).id == id) = false := by rw [hf v]; exact hv
      simpa [List.find?, hv, hfv] using ih

theorem findVideo_update_some (db : List Video) (id : String) (f : Video → Video)
    (v : Video) (hf : ∀ w, (f w).id = w.id) (hfind : findVideo db id = some v) :
    findVideo (updateVideo db id f) id = some (f v) := by
  rw [findVideo_updateVideo db id f hf, hfind]; rfl

/-!
## Equation lemmas for the completion handler stages
-/

theorem completeUpload_single_eq (env : Env) (now : Nat) (db : List Video)
    (uploadId : String) (v : Video)
    (hfind : findVideo db uploadId = some v)
    (hs : v.status = .pending_upload) :
    completeUpload env now db uploadId none none
      = checksumStage env now db uploadId v (parseS3Url v.sourceUrl env.bucket) [] := by
  unfold completeUpload
  simp only [hfind]
  rw [if_neg (by simp [hs])]

theorem completeUpload_conflict_eq (env : Env) (now : Nat) (db : List Video)
    (uploadId : String) (mp : Option String) (ps : Option (List PartInput))
    (w : Video)
    (hfind : findVideo db uploadId = some w)
    (hs : w.status ≠ .pending_upload) :
    completeUpload env now db uploadId mp ps
      = { outcome := .stateConflict w.status, db := db, jobs := [], trace := [] } := by
  unfold completeUpload
  simp only [hfind]
  rw [if_pos hs]

theorem checksumStage_none_eq (env : Env) (now : Nat) (db : List Video)
    (uploadId : String) (v : Video) (s3Key : String) (trace : List Effect)
    (hc : v.sourceChecksum = none) :
    checksumStage env now db uploadId v s3Key trace
      = transitionStage env now db uploadId v trace := by
  unfold checksumStage; rw [hc]

theorem checksumStage_mismatch_eq (env : Env) (now : Nat) (db : List Video)
    (uploadId : String) (v : Video) (s3Key : String) (trace : List Effect)
    (c : String) (bytes : List Nat)
    (hc : v.sourceChecksum = some c)
    (hstore : env.store s3Key = some bytes)
    (hmm : env.hash bytes ≠ c) :
    checksumStage env now db uploadId v s3Key trace
      = { outcome := .checksumMismatch c (env.hash bytes)
          db := updateVideo db uploadId
            (fun w => { w with status := .failed, updatedAt := now })
          jobs := []
          trace := trace ++ [.s3GetObject s3Key, .dbUpdateVideo uploadId] } := by
  unfold checksumStage
  simp only [hc, hstore]
  rw [if_neg hmm]

theorem transitionStage_ok_eq (env : Env) (now : Nat) (db : List Video)
    (uploadId : String) (v : Video) (trace : List Effect)
    (hq : env.queueOk = true) :
    transitionStage env now db uploadId v trace
      = { outcome := .ok v.id
          db := updateVideo db uploadId
            (fun w => { w with status := .processing, updatedAt := now })
          jobs := [{ videoId := v.id, sourceUrl := v.sourceUrl }]
          trace := trace ++ [.dbUpdateVideo uploadId, .enqueueJob v.id] } := by
  unfold transitionStage
  rw [hq, if_pos rfl]

/-!
## Inversion lemmas for the completion handler
-/

theorem checkParts_range (l : List PartInput) (i : Nat) (o : CompleteOutcome)
    (h : checkParts l i = some o) :
    o = .nonSequentialParts ∨ ∃ n, o = .missingETag n := by
  induction l generalizing i with
  | nil => simp [checkParts] at h
  | cons p ps ih =>
    simp only [checkParts] at h
    split at h
    · exact Or.inl (Option.some.inj h).symm
    · split at h
      · exact Or.inr ⟨p.PartNumber, (Option.some.inj h).symm⟩
      · exact ih _ h

theorem transitionStage_spec (env : Env) (now : Nat) (db : List Video)
    (uploadId : String) (v : Video) (trace : List Effect) :
    (transitionStage env now db uploadId v trace).db
      = updateVideo db uploadId (fun w => { w with status := .processing, updatedAt := now })
    ∧ ((env.queueOk = true
          ∧ (transitionStage env now db uploadId v trace).outcome = .ok v.id
          ∧ (transitionStage env now db uploadId v trace).jobs
              = [{ videoId := v.id, sourceUrl := v.sourceUrl }])
        ∨ (env.queueOk = false
          ∧ (transitionStage env now db uploadId v trace).outcome = .enqueueFailed
          ∧ (transitionStage env now db uploadId v trace).jobs = [])) := by
  cases hq : env.queueOk <;> simp [transitionStage, hq]

theorem checksumStage_cases (env : Env) (now : Nat) (db : List Video)
    (uploadId : String) (v : Video) (s3Key : String) (trace : List Effect) :
    (∃ t, checksumStage env now db uploadId v s3Key trace
            = transitionStage env now db uploadId v t)
    ∨ (checksumStage env now db uploadId v s3Key trace).outcome = .checksumError
    ∨ ∃ e a, (checksumStage env now db uploadId v s3Key trace).outcome
              = .checksumMismatch e a := by
  unfold checksumStage
  cases v.sourceChecksum with
  | none => exact Or.inl ⟨trace, rfl⟩
  | some expected =>
    cases env.store s3Key with
    | none => exact Or.inr (Or.inl rfl)
    | some bytes =>
      by_cases hh : env.hash bytes = expected
      · exact Or.inl ⟨trace ++ [.s3GetObject s3Key], by simp [hh]⟩
      · exact Or.inr (Or.inr ⟨expected, env.hash bytes, by simp [hh]⟩)

/-- If a completion run ends in `ok` or `enqueueFailed`, then the video was
found in `pending_upload`, its row was updated to `processing`, and the jobs
output is governed by the queue oracle. -/
theorem complete_transition_inversion (env : Env) (now : Nat) (db : List Video)
    (uploadId : String) (mp : Option String) (ps : Option (List PartInput))
    (h : (completeUpload env now db uploadId mp ps).outcome = .enqueueFailed
       ∨ ∃ vid, (completeUpload env now db uploadId mp ps).outcome = .ok vid) :
    ∃ v, findVideo db uploadId = some v ∧ v.status = .pending_upload
      ∧ (completeUpload env now db uploadId mp ps).db
          = updateVideo db uploadId
              (fun w => { w with status := .processing, updatedAt := now })
      ∧ ((env.queueOk = true
            ∧ (completeUpload env now db uploadId mp ps).outcome = .ok v.id
            ∧ (completeUpload env now db uploadId mp ps).jobs
                = [{ videoId := v.id, sourceUrl := v.sourceUrl }])
          ∨ (env.queueOk = false
            ∧ (completeUpload env now db uploadId mp ps).outcome = .enqueueFailed
            ∧ (completeUpload env now db uploadId mp ps).jobs = [])) := by
  unfold completeUpload at h ⊢
  cases hfind : findVideo db uploadId with
  | none => simp [hfind] at h
  | some v =>
    simp only [hfind] at h ⊢
    by_cases hs : v.status ≠ .pending_upload
    · simp [if_pos hs] at h
    · rw [if_neg hs] at h ⊢
      push_neg at hs
      refine ⟨v, rfl, hs, ?_⟩
      have finish : ∀ t : List Effect,
          (checksumStage env now db uploadId v
              (parseS3Url v.sourceUrl env.bucket) t).outcome = .enqueueFailed
            ∨ (∃ vid, (checksumStage env now db uploadId v
              (parseS3Url v.sourceUrl env.bucket) t).outcome = .ok vid) →
          (checksumStage env now db uploadId v
              (parseS3Url v.sourceUrl env.bucket) t).db
            = updateVideo db uploadId
                (fun w => { w with status := .processing, updatedAt := now })
          ∧ ((env.queueOk = true
                ∧ (checksumStage env now db uploadId v
                    (parseS3Url v.sourceUrl env.bucket) t).outcome = .ok v.id
                ∧ (checksumStage env now db uploadId v
                    (parseS3Url v.sourceUrl env.bucket) t).jobs
                    = [{ videoId := v.id, sourceUrl := v.sourceUrl }])
              ∨ (env.queueOk = false
                ∧ (checksumStage env now db uploadId v
                    (parseS3Url v.sourceUrl env.bucket) t).outcome = .enqueueFailed
                ∧ (checksumStage env now db uploadId v
                    (parseS3Url v.sourceUrl env.bucket) t).jobs = [])) := by
        intro t ht
        rcases checksumStage_cases env now db uploadId v
            (parseS3Url v.sourceUrl env.bucket) t with ⟨t', heq⟩ | herr | ⟨e, a, herr⟩
        · rw [heq]
          exact ⟨(transitionStage_spec env now db uploadId v t').1,
                 (transitionStage_spec env now db uploadId v t').2⟩
        · rw [herr] at ht
          rcases ht with ht | ⟨vid, ht⟩ <;> simp at ht
        · rw [herr] at ht
          rcases ht with ht | ⟨vid, ht⟩ <;> simp at ht
      cases mp with
      | none => exact finish [] h
      | some mpId =>
        cases ps with
        | none => exact finish [] h
        | some plist =>
          by_cases hemp : plist.isEmpty
          · simp [hemp] at h
          · simp only [Bool.not_eq_true] at hemp
            simp only [hemp] at h ⊢
            cases hchk : checkParts (sortParts plist) 0 with
            | some bad =>
              simp only [hchk] at h
              rcases checkParts_range _ _ _ hchk with hb | ⟨n, hb⟩ <;>
                subst hb <;> rcases h with h | ⟨vid, h⟩ <;> simp at h
            | none =>
              simp only [hchk] at h ⊢
              cases hok : env.s3CompleteOk with
              | false => simp [hok] at h
              | true =>
                simp only [hok] at h ⊢
                exact finish [.s3CompleteMultipart (parseS3Url v.sourceUrl env.bucket)] h

/-!
## Claim C1 — completion transition vs. enqueue atomicity
-/

/-- C1 counterexample: with a failing queue, completing a pending upload leaves
the video in `processing` with no job enqueued — the status write is not rolled
back, so an outcome with `processing` and no job does exist. -/
theorem c1_enqueue_failure_no_rollback_cex :
    (completeUpload envQueueDown 7 [baseVideo "v1"] "v1" none none).outcome
        = CompleteOutcome.enqueueFailed
      ∧ (findVideo (completeUpload envQueueDown 7 [baseVideo "v1"] "v1" none none).db
            "v1").map Video.status = some VideoStatus.processing
      ∧ (completeUpload envQueueDown 7 [baseVideo "v1"] "v1" none none).jobs = [] := by
  decide

/-- C1 (amended): the status update and the enqueue are two sequential
operations with no shared transaction; whenever the enqueue fails, the video
has already been moved from `pending_upload` to `processing`, stays there, and
no job is enqueued. -/
theorem c1_enqueue_failure_leaves_processing (env : Env) (now : Nat)
    (db : List Video) (uploadId : String) (mp : Option String)
    (ps : Option (List PartInput))
    (h : (completeUpload env now db uploadId mp ps).outcome = .enqueueFailed) :
    ∃ v, findVideo db uploadId = some v ∧ v.status = .pending_upload
      ∧ findVideo (completeUpload env now db uploadId mp ps).db uploadId
          = some { v with status := .processing, updatedAt := now }
      ∧ (completeUpload env now db uploadId mp ps).jobs = [] := by
  rcases complete_transition_inversion env now db uploadId mp ps (Or.inl h) with
    ⟨v, hfind, hs, hdb, hcase⟩
  refine ⟨v, hfind, hs, ?_, ?_⟩
  · rw [hdb]
    exact findVideo_update_some db uploadId
      (fun w => { w with status := VideoStatus.processing, updatedAt := now }) v
      (fun w => rfl) hfind
  · rcases hcase with ⟨_, hout, _⟩ | ⟨_, _, hjobs⟩
    · rw [h] at hout; cases hout
    · exact hjobs

/-- C1 witness. -/
theorem c1_enqueue_failure_leaves_processing_witness :
    ∃ v, findVideo [baseVideo "v1"] "v1" = some v
      ∧ v.status = .pending_upload
      ∧ findVideo (completeUpload envQueueDown 7 [baseVideo "v1"] "v1" none none).db
          "v1" = some { v with status := .processing, updatedAt := 7 }
      ∧ (completeUpload envQueueDown 7 [baseVideo "v1"] "v1" none none).jobs = [] :=
  c1_enqueue_failure_leaves_processing envQueueDown 7 [baseVideo "v1"] "v1"
    none none (by decide)

/-!
## Claim C2 — completion succeeds only if the object exists with matching size
-/

/-- C2 counterexample: the store holds no object at the source key, yet the
completion of a checksum-less pending upload returns `ok` and advances the
video to `processing` — no HEAD/existence/size check happens. -/
theorem c2_complete_without_object_cex :
    envEmptyStore.store
        (parseS3Url (baseVideo "v1").sourceUrl envEmptyStore.bucket) = none
      ∧ (completeUpload envEmptyStore 7 [baseVideo "v1"] "v1" none none).outcome
          = CompleteOutcome.ok "v1"
      ∧ (findVideo (completeUpload envEmptyStore 7 [baseVideo "v1"] "v1" none none).db
            "v1").map Video.status = some VideoStatus.processing := by
  decide

/-- C2 (amended): the completion handler performs no existence or size check
on the stored object.  For a single-PUT completion of a pending upload with no
declared checksum, the video advances to `processing` and the job is enqueued
whatever the store contents, and the trace contains no HEAD request. -/
theorem c2_no_existence_or_size_check (env : Env) (now : Nat) (db : List Video)
    (uploadId : String) (v : Video)
    (hfind : findVideo db uploadId = some v)
    (hs : v.status = .pending_upload)
    (hc : v.sourceChecksum = none)
    (hq : env.queueOk = true) :
    (completeUpload env now db uploadId none none).outcome = .ok v.id
      ∧ findVideo (completeUpload env now db uploadId none none).db uploadId
          = some { v with status := .processing, updatedAt := now }
      ∧ (completeUpload env now db uploadId none none).jobs
          = [{ videoId := v.id, sourceUrl := v.sourceUrl }]
      ∧ ∀ k, Effect.s3Head k ∉ (completeUpload env now db uploadId none none).trace := by
  have hrun : completeUpload env now db uploadId none none
      = { outcome := .ok v.id
          db := updateVideo db uploadId
            (fun w => { w with status := .processing, updatedAt := now })
          jobs := [{ videoId := v.id, sourceUrl := v.sourceUrl }]
          trace := [] ++ [.dbUpdateVideo uploadId, .enqueueJob v.id] } := by
    rw [completeUpload_single_eq env now db uploadId v hfind hs,
        checksumStage_none_eq env now db uploadId v _ [] hc,
        transitionStage_ok_eq env now db uploadId v [] hq]
  refine ⟨by rw [hrun], ?_, by rw [hrun], ?_⟩
  · rw [hrun]
    exact findVideo_update_some db uploadId
      (fun w => { w with status := VideoStatus.processing, updatedAt := now }) v
      (fun w => rfl) hfind
  · intro k
    rw [hrun]
    simp

/-- C2 witness. -/
theorem c2_no_existence_or_size_check_witness :
    (completeUpload envEmptyStore 7 [baseVideo "v1"] "v1" none none).outcome
        = .ok (baseVideo "v1").id
      ∧ findVideo (completeUpload envEmptyStore 7 [baseVideo "v1"] "v1" none none).db
          "v1" = some { baseVideo "v1" with status := .processing, updatedAt := 7 }
      ∧ (completeUpload envEmptyStore 7 [baseVideo "v1"] "v1" none none).jobs
          = [{ videoId := (baseVideo "v1").id, sourceUrl := (baseVideo "v1").sourceUrl }]
      ∧ ∀ k, Effect.s3Head k
          ∉ (completeUpload envEmptyStore 7 [baseVideo "v1"] "v1" none none).trace :=
  c2_no_existence_or_size_check envEmptyStore 7 [baseVideo "v1"] "v1"
    (baseVideo "v1") (by decide) (by decide) (by decide) (by decide)

/-!
## Claim C4 — double complete
-/

/-- C4: if a completion run returns `ok` (200 `processing`), a second
completion of the same video — with any request body — returns a 400 state
conflict carrying the current status `processing`, changes nothing, and
enqueues nothing, so exactly one job is enqueued across both calls. -/
theorem c4_double_complete_single_enqueue (env : Env) (now now2 : Nat)
    (db : List Video) (uploadId vid : String) (mp mp2 : Option String)
    (ps ps2 : Option (List PartInput))
    (h1 : (completeUpload env now db uploadId mp ps).outcome = .ok vid) :
    completeStatusCode (completeUpload env now db uploadId mp ps).outcome = 200
      ∧ (completeUpload env now2 (completeUpload env now db uploadId mp ps).db
            uploadId mp2 ps2).outcome = .stateConflict .processing
      ∧ completeStatusCode (completeUpload env now2
            (completeUpload env now db uploadId mp ps).db uploadId mp2 ps2).outcome = 400
      ∧ (completeUpload env now db uploadId mp ps).jobs.length = 1
      ∧ (completeUpload env now2 (completeUpload env now db uploadId mp ps).db
            uploadId mp2 ps2).jobs = []
      ∧ (completeUpload env now2 (completeUpload env now db uploadId mp ps).db
            uploadId mp2 ps2).db = (completeUpload env now db uploadId mp ps).db := by
  rcases complete_transition_inversion env now db uploadId mp ps (Or.inr ⟨vid, h1⟩) with
    ⟨v, hfind, hs, hdb, hcase⟩
  have hjobs1 : (completeUpload env now db uploadId mp ps).jobs
      = [{ videoId := v.id, sourceUrl := v.sourceUrl }] := by
    rcases hcase with ⟨_, _, hj⟩ | ⟨_, hout, _⟩
    · exact hj
    · rw [h1] at hout; cases hout
  have hfind2 : findVideo (completeUpload env now db uploadId mp ps).db uploadId
      = some { v with status := .processing, updatedAt := now } := by
    rw [hdb]
    exact findVideo_update_some db uploadId
      (fun w => { w with status := VideoStatus.processing, updatedAt := now }) v
      (fun w => rfl) hfind
  have hsecond : completeUpload env now2 (completeUpload env now db uploadId mp ps).db
      uploadId mp2 ps2
      = { outcome := .stateConflict .processing
          db := (completeUpload env now db uploadId mp ps).db
          jobs := []
          trace := [] } :=
    completeUpload_conflict_eq env now2 (completeUpload env now db uploadId mp ps).db
      uploadId mp2 ps2 { v with status := .processing, updatedAt := now }
      hfind2 (by simp)
  refine ⟨by rw [h1]; rfl, by rw [hsecond], by rw [hsecond]; rfl,
    by rw [hjobs1]; rfl, by rw [hsecond], by rw [hsecond]⟩

/-- C4 witness. -/
theorem c4_double_complete_single_enqueue_witness :
    completeStatusCode (completeUpload envEmptyStore 7 [baseVideo "v1"] "v1"
        none none).outcome = 200
      ∧ (completeUpload envEmptyStore 8
            (completeUpload envEmptyStore 7 [baseVideo "v1"] "v1" none none).db
            "v1" none none).outcome = .stateConflict .processing
      ∧ completeStatusCode (completeUpload envEmptyStore 8
            (completeUpload envEmptyStore 7 [baseVideo "v1"] "v1" none none).db
            "v1" none none).outcome = 400
      ∧ (completeUpload envEmptyStore 7 [baseVideo "v1"] "v1" none none).jobs.length = 1
      ∧ (completeUpload envEmptyStore 8
            (completeUpload envEmptyStore 7 [baseVideo "v1"] "v1" none none).db
            "v1" none none).jobs = []
      ∧ (completeUpload envEmptyStore 8
            (completeUpload envEmptyStore 7 [baseVideo "v1"] "v1" none none).db
            "v1" none none).db
          = (completeUpload envEmptyStore 7 [baseVideo "v1"] "v1" none none).db :=
  c4_double_complete_single_enqueue envEmptyStore 7 8 [baseVideo "v1"] "v1" "v1"
    none none none none (by decide)

/-!
## Claim C5 — abort ignores the state machine
-/

/-- A soft-deleted video row. -/
def deletedVideo : Video :=
  { baseVideo "v1" with status := .deleted, deletedAt := some 3 }

/-- C5 counterexample: aborting an upload whose video is in the terminal state
`deleted` succeeds and rewrites the status to `cancelled`. -/
theorem c5_abort_cancels_deleted_cex :
    deletedVideo.status = VideoStatus.deleted
      ∧ (abortUpload "bkt" 9 [deletedVideo] "v1" none).outcome = AbortOutcome.success
      ∧ (findVideo (abortUpload "bkt" 9 [deletedVideo] "v1" none).db "v1").map
          Video.status = some VideoStatus.cancelled := by
  decide

/-- C5 (amended): the abort handler has no status guard: any found video —
whatever its current status, including `processing`, `ready`, `failed` and
`deleted` — is set to `cancelled` with `cancelledAt` stamped. -/
theorem c5_abort_cancels_any_found_video (bucket : String) (now : Nat)
    (db : List Video) (uploadId : String) (mp : Option String) (v : Video)
    (hfind : findVideo db uploadId = some v) :
    (abortUpload bucket now db uploadId mp).outcome = .success
      ∧ findVideo (abortUpload bucket now db uploadId mp).db uploadId
          = some { v with status := .cancelled, cancelledAt := some now, updatedAt := now } := by
  unfold abortUpload
  simp only [hfind]
  refine ⟨by trivial, ?_⟩
  exact findVideo_update_some db uploadId
    (fun w => { w with status := VideoStatus.cancelled, cancelledAt := some now,
                       updatedAt := now }) v
    (fun w => rfl) hfind

/-- C5 witness. -/
theorem c5_abort_cancels_any_found_video_witness :
    (abortUpload "bkt" 9 [deletedVideo] "v1" none).outcome = .success
      ∧ findVideo (abortUpload "bkt" 9 [deletedVideo] "v1" none).db "v1"
          = some { deletedVideo with status := .cancelled, cancelledAt := some 9, updatedAt := 9 } :=
  c5_abort_cancels_any_found_video "bkt" 9 [deletedVideo] "v1" none deletedVideo
    (by decide)

/-!
## Claim C7 — whole-file checksum mismatch behavior
-/

/-- C7: when the declared whole-file checksum disagrees with the digest of the
stored object, completion returns 400 carrying the expected and received
values, the video is marked `failed`, no job is enqueued, and the trace
contains no object deletion. -/
theorem c7_checksum_mismatch_behavior (env : Env) (now : Nat) (db : List Video)
    (uploadId : String) (v : Video) (c : String) (bytes : List Nat)
    (hfind : findVideo db uploadId = some v)
    (hs : v.status = .pending_upload)
    (hc : v.sourceChecksum = some c)
    (hstore : env.store (parseS3Url v.sourceUrl env.bucket) = some bytes)
    (hmm : env.hash bytes ≠ c) :
    (completeUpload env now db uploadId none none).outcome
        = .checksumMismatch c (env.hash bytes)
      ∧ completeStatusCode (completeUpload env now db uploadId none none).outcome = 400
      ∧ findVideo (completeUpload env now db uploadId none none).db uploadId
          = some { v with status := .failed, updatedAt := now }
      ∧ (completeUpload env now db uploadId none none).jobs = []
      ∧ (∀ k, Effect.s3Delete k ∉ (completeUpload env now db uploadId none none).trace)
      ∧ ∀ vid, Effect.enqueueJob vid
          ∉ (completeUpload env now db uploadId none none).trace := by
  have hrun : completeUpload env now db uploadId none none
      = { outcome := .checksumMismatch c (env.hash bytes)
          db := updateVideo db uploadId
            (fun w => { w with status := .failed, updatedAt := now })
          jobs := []
          trace := [] ++ [.s3GetObject (parseS3Url v.sourceUrl env.bucket),
                          .dbUpdateVideo uploadId] } := by
    rw [completeUpload_single_eq env now db uploadId v hfind hs,
        checksumStage_mismatch_eq env now db uploadId v _ [] c bytes hc hstore hmm]
  refine ⟨by rw [hrun], by rw [hrun]; rfl, ?_, by rw [hrun], ?_, ?_⟩
  · rw [hrun]
    exact findVideo_update_some db uploadId
      (fun w => { w with status := VideoStatus.failed, updatedAt := now }) v
      (fun w => rfl) hfind
  · intro k
    rw [hrun]
    simp
  · intro vid
    rw [hrun]
    simp

/-- A pending upload declaring a whole-file checksum. -/
def checksumVideo : Video :=
  { baseVideo "v1" with sourceChecksum := some "expectedsum" }

/-- Environment whose store holds three bytes at the source key and whose hash
renders the byte count. -/
def envMismatch : Env :=
  { bucket := "bkt", s3CompleteOk := true, queueOk := true
    store := fun k => if k = "sources/v1/original.mp4" then some [1, 2, 3] else none
    hash := fun bytes => "digest" ++ toString bytes.length }

/-- C7 witness. -/
theorem c7_checksum_mismatch_behavior_witness :
    (completeUpload envMismatch 7 [checksumVideo] "v1" none none).outcome
        = .checksumMismatch "expectedsum" (envMismatch.hash [1, 2, 3])
      ∧ completeStatusCode (completeUpload envMismatch 7 [checksumVideo] "v1"
          none none).outcome = 400
      ∧ findVideo (completeUpload envMismatch 7 [checksumVideo] "v1" none none).db
          "v1" = some { checksumVideo with status := .failed, updatedAt := 7 }
      ∧ (completeUpload envMismatch 7 [checksumVideo] "v1" none none).jobs = []
      ∧ (∀ k, Effect.s3Delete k
          ∉ (completeUpload envMismatch 7 [checksumVideo] "v1" none none).trace)
      ∧ ∀ vid, Effect.enqueueJob vid
          ∉ (completeUpload envMismatch 7 [checksumVideo] "v1" none none).trace :=
  c7_checksum_mismatch_behavior envMismatch 7 [checksumVideo] "v1" checksumVideo
    "expectedsum" [1, 2, 3] (by decide) (by decide) (by decide) (by decide)
    (by decide)

/-!
## Claim C6 — the ready invariant
-/

/-- A video the worker is about to finish (status `processing`, no
`processedAt`). -/
def processingVideo : Video :=
  { baseVideo "v1" with status := .processing }

/-- C6 counterexample: a successful worker run marks the video `ready` while
leaving `processedAt` null, and — when the transcode produced no segments —
inserts no segment row, so `ready ⇒ processed_at ≠ null ∧ ∃ segment` fails in
the state the worker itself produces. -/
theorem c6_ready_without_processed_at_cex :
    (findVideo (workerSuccessRun [processingVideo] [] "v1" 10 1920 1080 []).db "v1").map
        Video.status = some VideoStatus.ready
      ∧ (findVideo (workerSuccessRun [processingVideo] [] "v1" 10 1920 1080 []).db
          "v1").map Video.processedAt = some none
      ∧ (workerSuccessRun [processingVideo] [] "v1" 10 1920 1080 []).segs = [] := by
  decide

/-- C6 (amended): the worker's ready update establishes `status = ready`,
non-null `manifest_url`, `duration`, `width`, `height` and `thumbnails`, but
leaves `processed_at` exactly as it was (it is never written), and segment rows
exist only when the transcode produced at least one. -/
theorem c6_worker_ready_fields (db : List Video) (segTable : List SegmentRow)
    (videoId : String) (d w h : Nat) (produced : List SegmentRow) (v : Video)
    (hfind : findVideo db videoId = some v) :
    findVideo (workerSuccessRun db segTable videoId d w h produced).db videoId
        = some { v with status := .ready
                        manifestUrl := some (workerManifestUrl videoId)
                        width := some w
                        height := some h
                        duration := some d
                        thumbnails := some (workerThumbs videoId) }
      ∧ (workerSuccessRun db segTable videoId d w h produced).segs
          = (if produced.isEmpty then segTable else segTable ++ produced) := by
  simp only [workerSuccessRun]
  refine ⟨?_, by trivial⟩
  have h1 := findVideo_update_some db videoId
    (fun u => { u with status := VideoStatus.processing }) v (fun u => rfl) hfind
  exact findVideo_update_some _ videoId
    (fun u => { u with status := VideoStatus.ready
                       manifestUrl := some (workerManifestUrl videoId)
                       width := some w
                       height := some h
                       duration := some d
                       thumbnails := some (workerThumbs videoId) })
    { v with status := VideoStatus.processing } (fun u => rfl) h1

/-- C6 witness. -/
theorem c6_worker_ready_fields_witness :
    findVideo (workerSuccessRun [processingVideo] [] "v1" 10 1920 1080 []).db "v1"
        = some { processingVideo with
                   status := .ready
                   manifestUrl := some (workerManifestUrl "v1")
                   width := some 1920
                   height := some 1080
                   duration := some 10
                   thumbnails := some (workerThumbs "v1") }
      ∧ (workerSuccessRun [processingVideo] [] "v1" 10 1920 1080 []).segs
          = (if ([] : List SegmentRow).isEmpty then ([] : List SegmentRow)
             else [] ++ []) :=
  c6_worker_ready_fields [processingVideo] [] "v1" 10 1920 1080 [] processingVideo
    (by decide)

/-!
## Claim C8 — session-type selection by declared size
-/

/-- C8 counterexample: one byte above `MAX_FILE_SIZE` the declared size is
above the multipart threshold, yet the handler answers 413 `tooLarge` rather
than initiating a multipart session — the "for `S = T+1` and above" clause of
the claim fails once `S` passes the size cap. -/
theorem c8_size_above_cap_not_multipart_cex :
    10 * 1024 * 1024 * 1024 + 1 > defaultConfig.multipartThreshold
      ∧ (createUpload defaultConfig "bkt" 0 "v1" "mp1" [] "a.mp4" "video/mp4"
            (10 * 1024 * 1024 * 1024 + 1) none none).outcome
          = CreateOutcome.tooLarge (10 * 1024 * 1024 * 1024)
              (10 * 1024 * 1024 * 1024 + 1)
      ∧ createStatusCode (createUpload defaultConfig "bkt" 0 "v1" "mp1" [] "a.mp4"
            "video/mp4" (10 * 1024 * 1024 * 1024 + 1) none none).outcome = 413 := by
  decide

/-- C8 (amended): for declared sizes within `MAX_FILE_SIZE`, the session type
is chosen purely by `S` against the threshold: at most the threshold mints a
single presigned PUT; above it, a multipart session with
`numParts = ⌈S / chunk⌉` and one part URL per part, and the 400 parts-limit
rejection happens exactly when `numParts` exceeds `MAX_MULTIPART_PARTS`. -/
theorem c8_session_selection (cfg : UploadConfig) (bucket : String) (now : Nat)
    (videoId mpUploadId : String) (db : List Video)
    (filename contentType : String) (size : Nat)
    (titleMeta checksum : Option String)
    (hpos : 0 < size) (hcap : size ≤ cfg.maxFileSize) :
    (size ≤ cfg.multipartThreshold →
        (createUpload cfg bucket now videoId mpUploadId db filename contentType
            size titleMeta checksum).outcome
          = .single videoId (presignedPartUrl (sourceKey videoId filename) 0))
      ∧ (cfg.multipartThreshold < size →
          (size + cfg.multipartChunkSize - 1) / cfg.multipartChunkSize
              ≤ cfg.maxMultipartParts →
          (createUpload cfg bucket now videoId mpUploadId db filename contentType
              size titleMeta checksum).outcome
            = .multipart videoId mpUploadId
                ((List.range ((size + cfg.multipartChunkSize - 1)
                    / cfg.multipartChunkSize)).map
                  (fun i => presignedPartUrl (sourceKey videoId filename) (i + 1)))
                cfg.multipartChunkSize
                ((size + cfg.multipartChunkSize - 1) / cfg.multipartChunkSize)
            ∧ ((List.range ((size + cfg.multipartChunkSize - 1)
                  / cfg.multipartChunkSize)).map
                (fun i => presignedPartUrl (sourceKey videoId filename) (i + 1))).length
              = (size + cfg.multipartChunkSize - 1) / cfg.multipartChunkSize)
      ∧ (cfg.multipartThreshold < size →
          ((createUpload cfg bucket now videoId mpUploadId db filename contentType
              size titleMeta checksum).outcome
            = .partsLimit cfg.maxMultipartParts
                ((size + cfg.multipartChunkSize - 1) / cfg.multipartChunkSize)
            ↔ cfg.maxMultipartParts
                < (size + cfg.multipartChunkSize - 1) / cfg.multipartChunkSize)) := by
  have hnotbig : ¬size > cfg.maxFileSize := by omega
  have hnz : ¬size = 0 := by omega
  refine ⟨?_, ?_, ?_⟩
  · intro hle
    simp only [createUpload]
    rw [if_neg hnotbig, if_neg hnz, if_neg (by omega)]
  · intro hgt hparts
    simp only [createUpload]
    rw [if_neg hnotbig, if_neg hnz, if_pos hgt, if_neg (by omega)]
    exact ⟨rfl, by simp⟩
  · intro hgt
    simp only [createUpload]
    rw [if_neg hnotbig, if_neg hnz, if_pos hgt]
    by_cases hparts : (size + cfg.multipartChunkSize - 1) / cfg.multipartChunkSize
        > cfg.maxMultipartParts
    · rw [if_pos hparts]
      exact ⟨fun _ => hparts, fun _ => rfl⟩
    · rw [if_neg hparts]
      constructor
      · intro hout
        cases hout
      · intro hlt
        exact absurd hlt hparts

/-- C8 witness: the two boundary sizes of the claim under the default
configuration — `S = MULTIPART_THRESHOLD` mints a single PUT and
`S = MULTIPART_THRESHOLD + 1` becomes a three-part multipart session. -/
theorem c8_session_selection_witness :
    ((100 * 1024 * 1024 ≤ defaultConfig.multipartThreshold →
        (createUpload defaultConfig "bkt" 0 "v1" "mp1" [] "a.mp4" "video/mp4"
            (100 * 1024 * 1024) none none).outcome
          = .single "v1" (presignedPartUrl (sourceKey "v1" "a.mp4") 0))
      ∧ (defaultConfig.multipartThreshold < 100 * 1024 * 1024 →
          (100 * 1024 * 1024 + defaultConfig.multipartChunkSize - 1)
              / defaultConfig.multipartChunkSize ≤ defaultConfig.maxMultipartParts →
          (createUpload defaultConfig "bkt" 0 "v1" "mp1" [] "a.mp4" "video/mp4"
              (100 * 1024 * 1024) none none).outcome
            = .multipart "v1" "mp1"
                ((List.range ((100 * 1024 * 1024 + defaultConfig.multipartChunkSize - 1)
                    / defaultConfig.multipartChunkSize)).map
                  (fun i => presignedPartUrl (sourceKey "v1" "a.mp4") (i + 1)))
                defaultConfig.multipartChunkSize
                ((100 * 1024 * 1024 + defaultConfig.multipartChunkSize - 1)
                  / defaultConfig.multipartChunkSize)
            ∧ ((List.range ((100 * 1024 * 1024 + defaultConfig.multipartChunkSize - 1)
                  / defaultConfig.multipartChunkSize)).map
                (fun i => presignedPartUrl (sourceKey "v1" "a.mp4") (i + 1))).length
              = (100 * 1024 * 1024 + defaultConfig.multipartChunkSize - 1)
                  / defaultConfig.multipartChunkSize)
      ∧ (defaultConfig.multipartThreshold < 100 * 1024 * 1024 →
          ((createUpload defaultConfig "bkt" 0 "v1" "mp1" [] "a.mp4" "video/mp4"
              (100 * 1024 * 1024) none none).outcome
            = .partsLimit defaultConfig.maxMultipartParts
                ((100 * 1024 * 1024 + defaultConfig.multipartChunkSize - 1)
                  / defaultConfig.multipartChunkSize)
            ↔ defaultConfig.maxMultipartParts
                < (100 * 1024 * 1024 + defaultConfig.multipartChunkSize - 1)
                    / defaultConfig.multipartChunkSize)))
    ∧ (createUpload defaultConfig "bkt" 0 "v1" "mp1" [] "a.mp4" "video/mp4"
          (100 * 1024 * 1024 + 1) none none).outcome
        = .multipart "v1" "mp1"
            ((List.range 3).map
              (fun i => presignedPartUrl (sourceKey "v1" "a.mp4") (i + 1)))
            defaultConfig.multipartChunkSize 3 :=
  ⟨c8_session_selection defaultConfig "bkt" 0 "v1" "mp1" [] "a.mp4" "video/mp4"
      (100 * 1024 * 1024) none none (by decide) (by decide),
   ((c8_session_selection defaultConfig "bkt" 0 "v1" "mp1" [] "a.mp4" "video/mp4"
      (100 * 1024 * 1024 + 1) none none (by decide) (by decide)).2.1
      (by decide) (by decide)).1⟩

/-!
## Claim C9 — parts-limit rejection leaves the initiated multipart upload
-/

/-- C9: when the handler rejects for exceeding the parts ceiling, the multipart
upload has already been initiated (it is the only effect in the trace — in
particular no abort follows) and no video row was inserted. -/
theorem c9_parts_limit_leaves_multipart (cfg : UploadConfig) (bucket : String)
    (now : Nat) (videoId mpUploadId : String) (db : List Video)
    (filename contentType : String) (size : Nat)
    (titleMeta checksum : Option String)
    (hcap : ¬size > cfg.maxFileSize) (hnz : size ≠ 0)
    (hthr : size > cfg.multipartThreshold)
    (hparts : (size + cfg.multipartChunkSize - 1) / cfg.multipartChunkSize
        > cfg.maxMultipartParts) :
    createUpload cfg bucket now videoId mpUploadId db filename contentType size
        titleMeta checksum
      = { outcome := .partsLimit cfg.maxMultipartParts
            ((size + cfg.multipartChunkSize - 1) / cfg.multipartChunkSize)
          db := db
          trace := [.s3CreateMultipart (sourceKey videoId filename)] }
      ∧ createStatusCode (createUpload cfg bucket now videoId mpUploadId db
          filename contentType size titleMeta checksum).outcome = 400 := by
  have hrun : createUpload cfg bucket now videoId mpUploadId db filename
      contentType size titleMeta checksum
      = { outcome := .partsLimit cfg.maxMultipartParts
            ((size + cfg.multipartChunkSize - 1) / cfg.multipartChunkSize)
          db := db
          trace := [.s3CreateMultipart (sourceKey videoId filename)] } := by
    simp only [createUpload]
    rw [if_neg hcap, if_neg hnz, if_pos hthr, if_pos hparts]
  exact ⟨hrun, by rw [hrun]; rfl⟩

/-- A configuration under which the parts ceiling is reachable (under the
default configuration the 10 GiB cap makes `numParts` at most 205, so the
`partsLimit` branch cannot fire). -/
def tinyConfig : UploadConfig :=
  { maxFileSize := 1000
    multipartThreshold := 10
    multipartChunkSize := 1
    maxMultipartParts := 5
    presignTtl := 3600 }

/-- C9 witness. -/
theorem c9_parts_limit_leaves_multipart_witness :
    (createUpload tinyConfig "bkt" 0 "v1" "mp1" [] "a.mp4" "video/mp4" 20
          none none
        = { outcome := .partsLimit tinyConfig.maxMultipartParts
              ((20 + tinyConfig.multipartChunkSize - 1) / tinyConfig.multipartChunkSize)
            db := []
            trace := [.s3CreateMultipart (sourceKey "v1" "a.mp4")] }
      ∧ createStatusCode (createUpload tinyConfig "bkt" 0 "v1" "mp1" [] "a.mp4"
          "video/mp4" 20 none none).outcome = 400) :=
  c9_parts_limit_leaves_multipart tinyConfig "bkt" 0 "v1" "mp1" [] "a.mp4"
    "video/mp4" 20 none none (by decide) (by decide) (by decide) (by decide)

/-!
## Claim C10 — soft-deleted videos: listing vs detail
-/

theorem mem_insertByCreatedDesc (v a : Video) (l : List Video) :
    a ∈ insertByCreatedDesc v l ↔ a = v ∨ a ∈ l := by
  induction l with
  | nil => simp [insertByCreatedDesc]
  | cons w ws ih =>
    simp only [insertByCreatedDesc]
    split
    · simp [List.mem_cons]
    · simp only [List.mem_cons, ih]
      tauto

theorem mem_sortByCreatedDesc (a : Video) (l : List Video) :
    a ∈ sortByCreatedDesc l ↔ a ∈ l := by
  induction l with
  | nil => simp [sortByCreatedDesc]
  | cons w ws ih =>
    simp only [sortByCreatedDesc, mem_insertByCreatedDesc, List.mem_cons, ih]

theorem findVideo_of_nodup (db : List Video) (v : Video)
    (hnd : (db.map Video.id).Nodup) (hmem : v ∈ db) :
    findVideo db v.id = some v := by
  induction db with
  | nil => cases hmem
  | cons w ws ih =>
    rcases List.mem_cons.mp hmem with rfl | hmem'
    · simp [findVideo, List.find?]
    · have hnd' : (w.id :: ws.map Video.id).Nodup := by simpa using hnd
      have hwid : w.id ∉ ws.map Video.id := (List.nodup_cons.mp hnd').1
      have hne : (w.id == v.id) = false := by
        refine beq_eq_false_iff_ne.mpr ?_
        intro he
        exact hwid (he ▸ List.mem_map_of_mem Video.id hmem')
      have hrest := ih (List.nodup_cons.mp hnd').2 hmem'
      simpa [findVideo, List.find?, hne] using hrest

theorem getVideoDetail_not_ready (fetchJson : String → Option String)
    (db : List Video) (id : String) (v : Video)
    (hfind : findVideo db id = some v) (hnr : v.status ≠ .ready) :
    getVideoDetail fetchJson db id = .okVideo v none := by
  simp only [getVideoDetail, hfind]
  cases hstat : v.status <;> first
    | rfl
    | exact absurd hstat hnr

/-- C10: a video with status `deleted` never appears in the `GET /videos`
listing, yet `GET /videos/:id` still answers 200 with the full row. -/
theorem c10_deleted_videos_listing_vs_detail (fetchJson : String → Option String)
    (db : List Video) (v : Video)
    (hnd : (db.map Video.id).Nodup) (hmem : v ∈ db)
    (hdel : v.status = .deleted) :
    (∀ s ∈ listVideos db, s.id ≠ v.id)
      ∧ getVideoDetail fetchJson db v.id = .okVideo v none
      ∧ detailStatusCode (getVideoDetail fetchJson db v.id) = 200 := by
  have hdet : getVideoDetail fetchJson db v.id = .okVideo v none :=
    getVideoDetail_not_ready fetchJson db v.id v
      (findVideo_of_nodup db v hnd hmem) (by rw [hdel]; intro hc; cases hc)
  refine ⟨?_, hdet, by rw [hdet]; rfl⟩
  intro s hs hsid
  rcases List.mem_map.mp hs with ⟨w, hw, rfl⟩
  have hw' := (mem_sortByCreatedDesc w _).mp hw
  have hwdb : w ∈ db := (List.mem_filter.mp hw').1
  have hp := (List.mem_filter.mp hw').2
  have hid : w.id = v.id := hsid
  have hwv : w = v := List.inj_on_of_nodup_map hnd hwdb hmem hid
  rw [hwv, hdel] at hp
  simp at hp

/-- C10 witness. -/
theorem c10_deleted_videos_listing_vs_detail_witness :
    (∀ s ∈ listVideos [deletedVideo], s.id ≠ deletedVideo.id)
      ∧ getVideoDetail (fun _ => none) [deletedVideo] deletedVideo.id
          = .okVideo deletedVideo none
      ∧ detailStatusCode (getVideoDetail (fun _ => none) [deletedVideo]
          deletedVideo.id) = 200 :=
  c10_deleted_videos_listing_vs_detail (fun _ => none) [deletedVideo] deletedVideo
    (by decide) (by decide) (by decide)

/-!
## Claim C3 — per-part checksum validation at completion
-/

theorem chunksOf5_length_le : ∀ l : List α, ∀ b ∈ chunksOf5 l, b.length ≤ 5
  | [] => by simp [chunksOf5]
  | [a] => by simp [chunksOf5]
  | [a, b] => by simp [chunksOf5]
  | [a, b, c] => by simp [chunksOf5]
  | [a, b, c, d] => by simp [chunksOf5]
  | a :: b :: c :: d :: e :: rest => by
    intro x hx
    rcases List.mem_cons.mp hx with rfl | hx'
    · simp
    · exact chunksOf5_length_le rest x hx'

theorem collectFailures_chunksOf5 (g : RegisteredPart → Option PartFailure) :
    ∀ l : List RegisteredPart, collectFailures g (chunksOf5 l) = l.filterMap g
  | [] => by simp [chunksOf5, collectFailures]
  | [a] => by simp [chunksOf5, collectFailures]
  | [a, b] => by simp [chunksOf5, collectFailures]
  | [a, b, c] => by simp [chunksOf5, collectFailures]
  | [a, b, c, d] => by simp [chunksOf5, collectFailures]
  | a :: b :: c :: d :: e :: rest => by
    simp only [chunksOf5, collectFailures]
    rw [collectFailures_chunksOf5 g rest, ← List.filterMap_append]
    rfl

theorem validateOnePart_eq_none_iff (store : String → Option (List Nat))
    (hash : List Nat → String) (key : String) (partSize : Nat)
    (p : RegisteredPart) :
    validateOnePart store hash key partSize p = none
      ↔ ∃ data, downloadPartialFile store key ((p.partNumber - 1) * partSize)
            ((p.partNumber - 1) * partSize + p.size - 1) = some data
          ∧ hash data = p.checksum := by
  unfold validateOnePart
  cases hdl : downloadPartialFile store key ((p.partNumber - 1) * partSize)
      ((p.partNumber - 1) * partSize + p.size - 1) with
  | none => simp [hdl]
  | some data =>
    by_cases hh : hash data = p.checksum
    · simp [hdl, hh]
    · simp [hdl, hh]

theorem transitionStage_no_rangeGet (env : Env) (now : Nat) (db : List Video)
    (uploadId : String) (v : Video) (trace : List Effect) (k : String) (a b : Nat)
    (ht : Effect.s3RangeGet k a b ∉ trace) :
    Effect.s3RangeGet k a b ∉ (transitionStage env now db uploadId v trace).trace := by
  cases hq : env.queueOk <;> simp [transitionStage, hq, List.mem_append, ht]

theorem checksumStage_no_rangeGet (env : Env) (now : Nat) (db : List Video)
    (uploadId : String) (v : Video) (s3Key : String) (trace : List Effect)
    (k : String) (a b : Nat)
    (ht : Effect.s3RangeGet k a b ∉ trace) :
    Effect.s3RangeGet k a b ∉ (checksumStage env now db uploadId v s3Key trace).trace := by
  unfold checksumStage
  split
  · exact transitionStage_no_rangeGet env now db uploadId v trace k a b ht
  · split
    · simp [List.mem_append, ht]
    · split
      · exact transitionStage_no_rangeGet env now db uploadId v
          (trace ++ [.s3GetObject s3Key]) k a b (by simp [List.mem_append, ht])
      · simp [List.mem_append, ht]

theorem completeUpload_no_rangeGet (env : Env) (now : Nat) (db : List Video)
    (uploadId : String) (mp : Option String) (ps : Option (List PartInput))
    (k : String) (a b : Nat) :
    Effect.s3RangeGet k a b ∉ (completeUpload env now db uploadId mp ps).trace := by
  unfold completeUpload
  cases hfind : findVideo db uploadId with
  | none => simp
  | some v =>
    simp only [hfind]
    by_cases hs : v.status ≠ .pending_upload
    · rw [if_pos hs]; simp
    · rw [if_neg hs]
      cases mp with
      | none =>
        exact checksumStage_no_rangeGet env now db uploadId v
          (parseS3Url v.sourceUrl env.bucket) [] k a b (by simp)
      | some mpId =>
        cases ps with
        | none =>
          exact checksumStage_no_rangeGet env now db uploadId v
            (parseS3Url v.sourceUrl env.bucket) [] k a b (by simp)
        | some plist =>
          cases hemp : plist.isEmpty with
          | true => simp [hemp]
          | false =>
            simp only [hemp]
            cases hchk : checkParts (sortParts plist) 0 with
            | some bad => simp
            | none =>
              simp only [hchk]
              cases hok : env.s3CompleteOk with
              | false => simp [hok]
              | true =>
                simp only [hok]
                exact checksumStage_no_rangeGet env now db uploadId v
                  (parseS3Url v.sourceUrl env.bucket)
                  [.s3CompleteMultipart (parseS3Url v.sourceUrl env.bucket)]
                  k a b (by simp)

/-- C3 counterexample: a registered per-part checksum disagrees with the stored
bytes (the validation function itself reports invalid), yet the multipart
completion succeeds without a single ranged GET: the completion handler never
invokes the per-part validation. -/
theorem c3_registered_checksums_ignored_cex :
    (validateS3PartChecksums envMismatch.store envMismatch.hash
        "sources/v1/original.mp4"
        [{ partNumber := 1, checksum := "badsum", size := 3 }] 4).valid = false
      ∧ (completeUpload envMismatch 7 [baseVideo "v1"] "v1" (some "m")
            (some [{ PartNumber := 1, ETag := "etag1" }])).outcome
          = CompleteOutcome.ok "v1"
      ∧ (completeUpload envMismatch 7 [baseVideo "v1"] "v1" (some "m")
            (some [{ PartNumber := 1, ETag := "etag1" }])).trace
          = [.s3CompleteMultipart "sources/v1/original.mp4",
             .dbUpdateVideo "v1", .enqueueJob "v1"] := by
  decide

/-- C3 (amended): `validateS3PartChecksums` does implement the described
verification — it is valid exactly when every registered part's ranged read
hashes to its registered checksum, and it processes the parts in batches of at
most five — but the completion handler never calls it: no completion run ever
performs a ranged GET, so registered per-part checksums cannot fail a
completion. -/
theorem c3_part_validation_defined_but_unused (store : String → Option (List Nat))
    (hash : List Nat → String) (key : String) (parts : List RegisteredPart)
    (partSize : Nat) (env : Env) (now : Nat) (db : List Video) (uploadId : String)
    (mp : Option String) (ps : Option (List PartInput)) :
    ((validateS3PartChecksums store hash key parts partSize).valid = true
        ↔ ∀ p ∈ parts, ∃ data,
            downloadPartialFile store key ((p.partNumber - 1) * partSize)
                ((p.partNumber - 1) * partSize + p.size - 1) = some data
              ∧ hash data = p.checksum)
      ∧ (∀ batch ∈ chunksOf5 parts, batch.length ≤ 5)
      ∧ ∀ k a b, Effect.s3RangeGet k a b
          ∉ (completeUpload env now db uploadId mp ps).trace := by
  refine ⟨?_, chunksOf5_length_le parts, fun k a b =>
    completeUpload_no_rangeGet env now db uploadId mp ps k a b⟩
  unfold validateS3PartChecksums
  rw [collectFailures_chunksOf5]
  rw [List.isEmpty_iff, List.filterMap_eq_nil_iff]
  constructor
  · intro hall p hp
    exact (validateOnePart_eq_none_iff store hash key partSize p).mp (hall p hp)
  · intro hall p hp
    exact (validateOnePart_eq_none_iff store hash key partSize p).mpr (hall p hp)

/-- C3 witness. -/
theorem c3_part_validation_defined_but_unused_witness :
    ((validateS3PartChecksums envMismatch.store envMismatch.hash
          "sources/v1/original.mp4"
          [{ partNumber := 1, checksum := "digest3", size := 3 }] 4).valid = true
        ↔ ∀ p ∈ [({ partNumber := 1, checksum := "digest3", size := 3 } : RegisteredPart)],
            ∃ data,
              downloadPartialFile envMismatch.store "sources/v1/original.mp4"
                  ((p.partNumber - 1) * 4) ((p.partNumber - 1) * 4 + p.size - 1)
                = some data
              ∧ envMismatch.hash data = p.checksum)
      ∧ (∀ batch ∈ chunksOf5
            [({ partNumber := 1, checksum := "digest3", size := 3 } : RegisteredPart)],
          batch.length ≤ 5)
      ∧ ∀ k a b, Effect.s3RangeGet k a b
          ∉ (completeUpload envMismatch 7 [baseVideo "v1"] "v1" (some "m")
              (some [{ PartNumber := 1, ETag := "etag1" }])).trace :=
  c3_part_validation_defined_but_unused envMismatch.store envMismatch.hash
    "sources/v1/original.mp4"
    [{ partNumber := 1, checksum := "digest3", size := 3 }] 4
    envMismatch 7 [baseVideo "v1"] "v1" (some "m")
    (some [{ PartNumber := 1, ETag := "etag1" }])

end StreamForge
